import Mathlib

/-!
Shallow embedding of the catalog-lookup / bounding-box helper layer of the
itslivebook repository (notebook accessing_s3_data.ipynb), together with
theorems checking the natural-language specification against it.

The embedded functions are:
  - the locator translation performed inline in read_in_s3 and
    find_granules_by_zone (Python str.replace, which rewrites every
    non-overlapping occurrence left to right);
  - find_granule_by_point (point lookup over a geojson catalog, using the
    shapely/geopandas contains predicate, which is boundary-exclusive:
    a polygon contains a point iff the point lies in its interior);
  - find_granules_by_zone (zone lookup with an s3 existence probe);
  - get_bbox_single (bounding-box computation; the source function renders
    the polygon with matplotlib and returns None).

Python strings are modelled as Lean String (a list of characters), floats
as rationals, dict-field absence as Option, and a raised exception as the
error branch of Except. Network reachability (s3fs lexists) and
coordinate reprojection (geopandas to_crs) are external effects and are
passed in as function parameters.
-/

namespace ItsLive

/-- A geographic or projected point, as a pair of coordinates. -/
abbrev Pt := ℚ × ℚ

/-- Errors raised by the Python code when it touches missing data:
a missing dict key raises KeyError, a missing attribute
(input_xr.mapping.spatial_epsg absent) raises AttributeError, and
numpy min/max of an empty axis raises ValueError. -/
inductive PyError where
  | keyError
  | attributeError
  | valueError
deriving DecidableEq

/-- Fuel-indexed worker for Python str.replace: replaces every
non-overlapping occurrence of pat, scanning left to right. Fuel is the
length of the scanned list, so the zero-fuel arm is never reached on a
nonempty pattern. -/
def pyReplaceGo (pat rep : List Char) : Nat → List Char → List Char
  | _, [] => []
  | Nat.succ fuel, c :: rest =>
      if pat.isPrefixOf (c :: rest) then
        rep ++ pyReplaceGo pat rep fuel ((c :: rest).drop pat.length)
      else
        c :: pyReplaceGo pat rep fuel rest
  | 0, s => s

/-- Python s.replace(pat, rep) for a nonempty pattern: every
non-overlapping occurrence of pat in s is rewritten to rep, left to
right. -/
def pyReplace (s pat rep : String) : String :=
  String.mk (pyReplaceGo pat.data rep.data s.data.length s.data)

/-- The locator translation applied inline in read_in_s3 and
find_granules_by_zone:
url.replace(http, s3).replace(.s3.amazonaws.com, empty). -/
def translate (http_url : String) : String :=
  pyReplace (pyReplace http_url "http" "s3") ".s3.amazonaws.com" ""

/-- Consecutive edges of a coordinate ring, including the wrap-around
edge from the last vertex back to the first (shapely closes an unclosed
ring; on an already closed ring the extra edge is degenerate and
harmless). -/
def edges : List Pt → List (Pt × Pt)
  | [] => []
  | a :: rest => List.zip (a :: rest) (rest ++ [a])

/-- Whether point p lies on the closed segment from a to b. -/
def onSegment (e : Pt × Pt) (p : Pt) : Bool :=
  decide ((e.2.1 - e.1.1) * (p.2 - e.1.2) = (e.2.2 - e.1.2) * (p.1 - e.1.1)) &&
  decide (min e.1.1 e.2.1 ≤ p.1) && decide (p.1 ≤ max e.1.1 e.2.1) &&
  decide (min e.1.2 e.2.2 ≤ p.2) && decide (p.2 ≤ max e.1.2 e.2.2)

/-- Whether point p lies on the boundary of the polygon with the given
ring. -/
def onBoundary (ring : List Pt) (p : Pt) : Bool :=
  (edges ring).any (fun e => onSegment e p)

/-- Even-odd ray-casting test: whether the horizontal ray from p to the
left crosses edge e. -/
def crossesRay (p : Pt) (e : Pt × Pt) : Bool :=
  (decide (e.1.2 > p.2) != decide (e.2.2 > p.2)) &&
  decide (p.1 < e.1.1 + (e.2.1 - e.1.1) * (p.2 - e.1.2) / (e.2.2 - e.1.2))

/-- The shapely/geopandas contains predicate used by
find_granule_by_point (bbox_gdf.contains(point_gdf).all()): a polygon
contains a point iff the point lies in the interior — strictly inside,
not on the boundary. Modelled by the standard even-odd rule, which
agrees with shapely on simple polygons. -/
def polyContains (ring : List Pt) (p : Pt) : Bool :=
  !(onBoundary ring p) && ((edges ring).countP (crossesRay p)) % 2 == 1

/-- One catalog feature, as traversed by the lookups. Each field is the
value reached by a dict access in the source, and none when the
corresponding key is absent (so the access raises KeyError):
geometry is feature.geometry.coordinates[0] (the footprint ring),
data_epsg is feature.properties.data_epsg (the zone identifier), and
zarr_url is feature.properties.zarr_url (the resource locator). -/
structure Feature where
  geometry : Option (List Pt)
  data_epsg : Option String
  zarr_url : Option String
deriving DecidableEq

/-- The itslive catalog geojson: an ordered list of features. -/
structure Catalog where
  features : List Feature
deriving DecidableEq

/-- Loop body of find_granule_by_point: iterate over the features in
catalog order; for each, take the footprint ring (KeyError if absent),
test containment with the boundary-exclusive contains predicate, and on
a hit append the raw zarr_url (KeyError if absent). A raised error
aborts the whole call. -/
def find_granule_by_point_loop (input_point : Pt) :
    List Feature → Except PyError (List String)
  | [] => .ok []
  | f :: rest =>
    match f.geometry with
    | none => .error .keyError
    | some bbox_ls =>
      if polyContains bbox_ls input_point then
        match f.zarr_url with
        | none => .error .keyError
        | some u =>
          Except.map (fun tail => u :: tail)
            (find_granule_by_point_loop input_point rest)
      else find_granule_by_point_loop input_point rest

/-- find_granule_by_point(input_dict, input_point): returns the list of
zarr_url values, verbatim and in catalog order, of the features whose
footprint polygon contains the point. -/
def find_granule_by_point (input_dict : Catalog) (input_point : Pt) :
    Except PyError (List String) :=
  find_granule_by_point_loop input_point input_dict.features

/-- Loop body of find_granules_by_zone: iterate over the features in
catalog order; for each, read data_epsg (KeyError if absent) and compare
with the target code; on a match read zarr_url (KeyError if absent),
translate it to s3 form, probe existence with lexists, and keep the
translated locator only if the probe succeeds. -/
def find_granules_by_zone_loop (lexists : String → Bool) (epsg_code : String) :
    List Feature → Except PyError (List String)
  | [] => .ok []
  | f :: rest =>
    match f.data_epsg with
    | none => .error .keyError
    | some z =>
      if z = epsg_code then
        match f.zarr_url with
        | none => .error .keyError
        | some http_url =>
          let s3_url := translate http_url
          if lexists s3_url then
            Except.map (fun tail => s3_url :: tail)
              (find_granules_by_zone_loop lexists epsg_code rest)
          else find_granules_by_zone_loop lexists epsg_code rest
      else find_granules_by_zone_loop lexists epsg_code rest

/-- find_granules_by_zone(input_dict, epsg_code), with the s3fs
existence probe fs.lexists passed in as the function lexists (it is a
network effect; the value it had at call time is the oracle). -/
def find_granules_by_zone (lexists : String → Bool) (input_dict : Catalog)
    (epsg_code : String) : Except PyError (List String) :=
  find_granules_by_zone_loop lexists epsg_code input_dict.features

/-- A geopandas GeoDataFrame holding one polygon and a crs tag. -/
structure GeoPolygon where
  geom : List Pt
  crs : String
deriving DecidableEq

/-- polygon.to_crs(target): reproject every vertex from the polygon
crs to the target crs using the external transform tf, and retag. -/
def to_crs (tf : String → String → Pt → Pt) (g : GeoPolygon) (target : String) :
    GeoPolygon :=
  GeoPolygon.mk (g.geom.map (tf g.crs target)) target

/-- The dataset handle consumed by get_bbox_single: the two 1-D
coordinate axes input_xr.coords of x and y, and the projection attribute
input_xr.mapping.spatial_epsg (none when the attribute chain is absent,
in which case the access raises AttributeError). -/
structure Dataset where
  x : List ℚ
  y : List ℚ
  spatial_epsg : Option Nat
deriving DecidableEq

/-- numpy arr.min(): ValueError on an empty axis. -/
def listMin : List ℚ → Except PyError ℚ
  | [] => .error .valueError
  | a :: rest => .ok (rest.foldl min a)

/-- numpy arr.max(): ValueError on an empty axis. -/
def listMax : List ℚ → Except PyError ℚ
  | [] => .error .valueError
  | a :: rest => .ok (rest.foldl max a)

/-- The computation half of get_bbox_single, exactly the source lines up
to polygon.to_crs: take the coordinate extrema, build the five-vertex
closed rectangle pts_ls, tag it with crs epsg:{spatial_epsg}
(AttributeError if the projection attribute is absent), and reproject to
epsg:4326. -/
def bbox_polygon (tf : String → String → Pt → Pt) (input_xr : Dataset) :
    Except PyError GeoPolygon :=
  match listMin input_xr.x, listMax input_xr.x,
        listMin input_xr.y, listMax input_xr.y with
  | .error e, _, _, _ => .error e
  | _, .error e, _, _ => .error e
  | _, _, .error e, _ => .error e
  | _, _, _, .error e => .error e
  | .ok xmin, .ok xmax, .ok ymin, .ok ymax =>
    let pts_ls : List Pt :=
      [(xmin, ymin), (xmax, ymin), (xmax, ymax), (xmin, ymax), (xmin, ymin)]
    match input_xr.spatial_epsg with
    | none => .error .attributeError
    | some e =>
      let crs := "epsg:" ++ toString e
      let polygon := GeoPolygon.mk pts_ls crs
      .ok (to_crs tf polygon "epsg:4326")

/-- get_bbox_single(input_xr): computes bbox_polygon, then derives plot
bounds from it and renders it with matplotlib/cartopy. The rendering has
no observable value here, and the function body has no return statement,
so a successful call evaluates to None — modelled as .ok none. An
exception raised during the computation propagates. -/
def get_bbox_single (tf : String → String → Pt → Pt) (input_xr : Dataset) :
    Except PyError (Option GeoPolygon) :=
  match bbox_polygon tf input_xr with
  | .error e => .error e
  | .ok _polygon => .ok none

/-- Spec view of a feature footprint test: false when the geometry field
is absent, otherwise containment in the stored ring. Under the catalog
well-formedness hypothesis this coincides with what the loop computes. -/
def featureContains (p : Pt) (f : Feature) : Bool :=
  match f.geometry with
  | some ring => polyContains ring p
  | none => false

/-- Spec view of a feature resource locator (defaulting to the empty
string when absent; only used under hypotheses that make it present). -/
def urlD (f : Feature) : String :=
  f.zarr_url.getD ""

/-- A catalog is well formed for the point lookup when every feature has
a footprint ring and a resource locator. -/
abbrev wfPoint (C : Catalog) : Prop :=
  ∀ f ∈ C.features, f.geometry.isSome ∧ f.zarr_url.isSome

/-- A catalog is well formed for the zone lookup when every feature has
a zone identifier and a resource locator. -/
abbrev wfZone (C : Catalog) : Prop :=
  ∀ f ∈ C.features, f.data_epsg.isSome ∧ f.zarr_url.isSome

/-- Spec view of the boundary test: true when the point lies on the
boundary of the stored footprint ring, false when the geometry field is
absent. -/
def featureBoundary (p : Pt) (f : Feature) : Bool :=
  match f.geometry with
  | some ring => onBoundary ring p
  | none => false

/-- Spec view of the zone-lookup keep condition: the feature zone
identifier equals the target and the existence probe succeeds on the
translated locator. -/
def zoneKeep (lexists : String → Bool) (epsg_code : String) (f : Feature) : Bool :=
  decide (f.data_epsg = some epsg_code) && lexists (translate (urlD f))

/-- Total view of the smallest coordinate of an axis (only used under a
nonemptiness hypothesis, matching numpy min on a nonempty array). -/
def coordMin : List ℚ → ℚ
  | [] => 0
  | a :: rest => rest.foldl min a

/-- Total view of the largest coordinate of an axis. -/
def coordMax : List ℚ → ℚ
  | [] => 0
  | a :: rest => rest.foldl max a

/-- The square footprint ring used by concrete test catalogs. -/
def ringSq : List Pt := [(0, 0), (2, 0), (2, 2), (0, 2), (0, 0)]

/-- A far-away square footprint, not containing the test points below. -/
def ringFar : List Pt := [(10, 10), (12, 10), (12, 12), (10, 12), (10, 10)]

/-- Concrete two-feature catalog: the first footprint contains (1,1),
the second does not. -/
def catC1 : Catalog :=
  Catalog.mk
    [Feature.mk (some ringSq) (some "EPSG:32645") (some "http://example.com/a.zarr"),
     Feature.mk (some ringFar) (some "EPSG:32646") (some "http://example.com/b.zarr")]

/-- Concrete one-feature catalog whose footprint boundary passes through
the test point (1,0). -/
def catC2 : Catalog :=
  Catalog.mk
    [Feature.mk (some ringSq) (some "EPSG:32645") (some "http://example.com/a.zarr")]

/-- Concrete catalog for the zone lookup: two features in the target
zone (one reachable, one not) and one feature in another zone. -/
def catC4 : Catalog :=
  Catalog.mk
    [Feature.mk (some ringSq) (some "EPSG:32645")
       (some "http://its-live-data.s3.amazonaws.com/ok.zarr"),
     Feature.mk (some ringSq) (some "EPSG:32645")
       (some "http://its-live-data.s3.amazonaws.com/missing.zarr"),
     Feature.mk (some ringFar) (some "EPSG:32646")
       (some "http://its-live-data.s3.amazonaws.com/other.zarr")]

/-- Concrete existence-probe oracle: only the first translated locator
of catC4 exists. -/
def lexC4 : String → Bool :=
  fun s => s == "s3://its-live-data/ok.zarr"

/-- Identity transform standing in for a concrete reprojection when only
the plumbing is under test. -/
def tfId : String → String → Pt → Pt :=
  fun _ _ p => p

/-- Concrete dataset with x axis [0, 2], y axis [0, 3] and projection
attribute 32645. -/
def dsC5 : Dataset := Dataset.mk [0, 2] [0, 3] (some 32645)

/-- Concrete dataset with coordinate axes but no projection attribute. -/
def dsC6 : Dataset := Dataset.mk [0, 2] [0, 3] none

/-- Concrete catalog with a schema violation: its only feature has no
zarr_url, while its footprint does not contain the test point (10,10)
and its zone differs from the test zone. -/
def catC7bad : Catalog :=
  Catalog.mk [Feature.mk (some ringSq) (some "EPSG:1") none]

/-- Concrete catalog whose only feature is missing its footprint ring. -/
def catC7geom : Catalog :=
  Catalog.mk [Feature.mk none (some "EPSG:1") (some "http://example.com/a.zarr")]

/-- Concrete catalog whose only feature is missing its zone identifier. -/
def catC7epsg : Catalog :=
  Catalog.mk [Feature.mk (some ringSq) none (some "http://example.com/a.zarr")]

/-- Concrete one-feature catalog with a gateway-form locator, for
comparing the forms returned by the two lookups. -/
def catC10 : Catalog :=
  Catalog.mk
    [Feature.mk (some ringSq) (some "EPSG:32645")
       (some "http://its-live-data.s3.amazonaws.com/a.zarr")]

/-- On a well-formed feature list the point-lookup loop is exactly
filter-then-map: keep the features whose footprint contains the point,
in catalog order, and read off their locators verbatim. -/
theorem find_granule_by_point_loop_eq (p : Pt) :
    ∀ fs : List Feature, (∀ f ∈ fs, f.geometry.isSome ∧ f.zarr_url.isSome) →
      find_granule_by_point_loop p fs =
        .ok ((fs.filter (featureContains p)).map urlD)
  | [], _ => rfl
  | f :: rest, h => by
    obtain ⟨hg, hu⟩ := h f (List.mem_cons_self f rest)
    obtain ⟨r, hr⟩ := Option.isSome_iff_exists.mp hg
    obtain ⟨u, hu2⟩ := Option.isSome_iff_exists.mp hu
    have ih := find_granule_by_point_loop_eq p rest
      (fun g hg2 => h g (List.mem_cons_of_mem f hg2))
    cases hc : polyContains r p with
    | true =>
      simp [find_granule_by_point_loop, hr, hu2, hc, ih, List.filter_cons,
        featureContains, urlD, Except.map]
    | false =>
      simp [find_granule_by_point_loop, hr, hc, ih, List.filter_cons,
        featureContains, urlD]

/-- On a well-formed feature list the zone-lookup loop is exactly
filter-then-map: keep the features whose zone matches and whose
translated locator passes the existence probe, in catalog order, and
return the translated locators. -/
theorem find_granules_by_zone_loop_eq (lexists : String → Bool)
    (epsg_code : String) :
    ∀ fs : List Feature, (∀ f ∈ fs, f.data_epsg.isSome ∧ f.zarr_url.isSome) →
      find_granules_by_zone_loop lexists epsg_code fs =
        .ok ((fs.filter (zoneKeep lexists epsg_code)).map
          (fun f => translate (urlD f)))
  | [], _ => rfl
  | f :: rest, h => by
    obtain ⟨hz, hu⟩ := h f (List.mem_cons_self f rest)
    obtain ⟨z, hz2⟩ := Option.isSome_iff_exists.mp hz
    obtain ⟨u, hu2⟩ := Option.isSome_iff_exists.mp hu
    have ih := find_granules_by_zone_loop_eq lexists epsg_code rest
      (fun g hg2 => h g (List.mem_cons_of_mem f hg2))
    by_cases hzz : z = epsg_code
    · subst hzz
      cases hl : lexists (translate u) with
      | true =>
        simp [find_granules_by_zone_loop, hz2, hu2, hl, ih, List.filter_cons,
          zoneKeep, urlD, Except.map]
      | false =>
        simp [find_granules_by_zone_loop, hz2, hu2, hl, ih, List.filter_cons,
          zoneKeep, urlD]
    · simp [find_granules_by_zone_loop, hz2, hu2, hzz, ih, List.filter_cons,
        zoneKeep, urlD]

/-- When every footprint fails the contains test, the point-lookup loop
returns the empty list. -/
theorem find_granule_by_point_loop_skip (p : Pt) :
    ∀ fs : List Feature,
      (∀ f ∈ fs, ∃ r, f.geometry = some r ∧ polyContains r p = false) →
      find_granule_by_point_loop p fs = .ok []
  | [], _ => rfl
  | f :: rest, h => by
    obtain ⟨r, hr, hc⟩ := h f (List.mem_cons_self f rest)
    have ih := find_granule_by_point_loop_skip p rest
      (fun g hg => h g (List.mem_cons_of_mem f hg))
    simp [find_granule_by_point_loop, hr, hc, ih]

/-- If any feature of the list is missing its footprint ring, the
point-lookup loop raises KeyError. -/
theorem find_granule_by_point_loop_err (p : Pt) :
    ∀ fs : List Feature, (∃ f ∈ fs, f.geometry = none) →
      find_granule_by_point_loop p fs = .error .keyError
  | [], h => absurd h (by simp)
  | f :: rest, h => by
    cases hg : f.geometry with
    | none => simp [find_granule_by_point_loop, hg]
    | some r =>
      have hrest : ∃ g ∈ rest, g.geometry = none := by
        obtain ⟨g, hgm, hgn⟩ := h
        rcases List.mem_cons.mp hgm with rfl | hgm2
        · rw [hg] at hgn
          exact absurd hgn (by simp)
        · exact ⟨g, hgm2, hgn⟩
      have ih := find_granule_by_point_loop_err p rest hrest
      cases hc : polyContains r p with
      | false => simp [find_granule_by_point_loop, hg, hc, ih]
      | true =>
        cases hu : f.zarr_url with
        | none => simp [find_granule_by_point_loop, hg, hc, hu]
        | some u =>
          simp [find_granule_by_point_loop, hg, hc, hu, ih, Except.map]

/-- If any feature of the list is missing its zone identifier, the
zone-lookup loop raises KeyError. -/
theorem find_granules_by_zone_loop_err (lexists : String → Bool)
    (epsg_code : String) :
    ∀ fs : List Feature, (∃ f ∈ fs, f.data_epsg = none) →
      find_granules_by_zone_loop lexists epsg_code fs = .error .keyError
  | [], h => absurd h (by simp)
  | f :: rest, h => by
    cases hz : f.data_epsg with
    | none => simp [find_granules_by_zone_loop, hz]
    | some z =>
      have hrest : ∃ g ∈ rest, g.data_epsg = none := by
        obtain ⟨g, hgm, hgn⟩ := h
        rcases List.mem_cons.mp hgm with rfl | hgm2
        · rw [hz] at hgn
          exact absurd hgn (by simp)
        · exact ⟨g, hgm2, hgn⟩
      have ih := find_granules_by_zone_loop_err lexists epsg_code rest hrest
      by_cases hzz : z = epsg_code
      · cases hu : f.zarr_url with
        | none => simp [find_granules_by_zone_loop, hz, hzz, hu]
        | some u =>
          cases hl : lexists (translate u) with
          | true =>
            simp [find_granules_by_zone_loop, hz, hzz, hu, hl, ih, Except.map]
          | false =>
            simp [find_granules_by_zone_loop, hz, hzz, hu, hl, ih]
      · simp [find_granules_by_zone_loop, hz, hzz, ih]

/-- C1: for every well-formed catalog and point, find_granule_by_point
returns exactly the locators of the features whose footprint polygon
contains the point — the filter-map over the catalog, so every returned
locator belongs to a containing feature, every containing feature
contributes its locator, catalog order is preserved with one entry per
feature (hence no duplicates whenever the catalog locators are
distinct), and the result is empty when no footprint contains the
point. -/
theorem find_granule_by_point_spec (C : Catalog) (p : Pt) (h : wfPoint C) :
    find_granule_by_point C p =
      .ok ((C.features.filter (featureContains p)).map urlD) ∧
    ((C.features.map urlD).Nodup →
      ((C.features.filter (featureContains p)).map urlD).Nodup) ∧
    ((∀ f ∈ C.features, featureContains p f = false) →
      find_granule_by_point C p = .ok []) := by
  refine ⟨find_granule_by_point_loop_eq p C.features h, ?_, ?_⟩
  · intro hn
    exact List.Nodup.sublist
      (List.Sublist.map urlD (List.filter_sublist C.features)) hn
  · intro hnone
    have hf : C.features.filter (featureContains p) = [] :=
      List.filter_eq_nil_iff.mpr (fun f hf => by simp [hnone f hf])
    have := find_granule_by_point_loop_eq p C.features h
    rw [hf] at this
    exact this

/-- Witness for C1 at a concrete two-feature catalog: only the feature
whose footprint contains (1,1) contributes its locator. -/
theorem find_granule_by_point_spec_witness :
    find_granule_by_point catC1 (1, 1) = .ok ["http://example.com/a.zarr"] := by
  rw [(find_granule_by_point_spec catC1 (1, 1) (by decide)).1]
  with_unfolding_all rfl

/-- C2 counterexample: the point (1,0) lies exactly on the footprint
boundary of the only feature of catC2, yet find_granule_by_point
returns the empty list instead of that feature locator — the contains
test is not boundary-inclusive. -/
theorem boundary_point_dropped_cex :
    onBoundary ringSq (1, 0) = true ∧
    find_granule_by_point catC2 (1, 0) = .ok [] :=
  ⟨by with_unfolding_all rfl, by with_unfolding_all rfl⟩

/-- C2 amended: the point-in-polygon test used by the point lookup is
boundary-exclusive — a point lying exactly on a footprint boundary is
not contained, and a catalog all of whose footprints carry the point on
their boundary yields the empty result. -/
theorem contains_boundary_exclusive :
    (∀ (ring : List Pt) (p : Pt),
      onBoundary ring p = true → polyContains ring p = false) ∧
    (∀ (C : Catalog) (p : Pt),
      (∀ f ∈ C.features, f.geometry.isSome ∧ featureBoundary p f = true) →
      find_granule_by_point C p = .ok []) := by
  constructor
  · intro ring p h
    simp [polyContains, h]
  · intro C p h
    apply find_granule_by_point_loop_skip
    intro f hf
    obtain ⟨hg, hb⟩ := h f hf
    obtain ⟨r, hr⟩ := Option.isSome_iff_exists.mp hg
    refine ⟨r, hr, ?_⟩
    have hb2 : onBoundary r p = true := by
      simpa [featureBoundary, hr] using hb
    simp [polyContains, hb2]

/-- Witness for C2 amended at the concrete boundary point (1,0). -/
theorem contains_boundary_exclusive_witness :
    polyContains ringSq (1, 0) = false ∧
    find_granule_by_point catC2 (1, 0) = .ok [] := by
  constructor
  · exact contains_boundary_exclusive.1 ringSq (1, 0) (by with_unfolding_all rfl)
  · apply contains_boundary_exclusive.2 catC2 (1, 0)
    intro f hf
    simp [catC2] at hf
    subst hf
    exact ⟨rfl, by with_unfolding_all rfl⟩

/-- C3: the locator translation maps the catalog example literal to its
s3-native form — the http scheme becomes s3 and the gateway host suffix
.s3.amazonaws.com is removed. -/
theorem translate_example_literal :
    translate "http://its-live-data.s3.amazonaws.com/datacubes/catalog_v02.json" =
      "s3://its-live-data/datacubes/catalog_v02.json" := by
  decide

/-- C4: for every well-formed catalog, zone identifier and existence
oracle, find_granules_by_zone returns exactly the translated s3-form
locators of the zone-matching features that pass the existence probe,
in catalog order; unreachable ones are silently dropped (the call still
succeeds), and every returned locator comes from a feature whose zone
equals the target, is in translated form, and probed reachable. -/
theorem find_granules_by_zone_spec (lexists : String → Bool) (C : Catalog)
    (epsg_code : String) (h : wfZone C) :
    find_granules_by_zone lexists C epsg_code =
      .ok ((C.features.filter (zoneKeep lexists epsg_code)).map
        (fun f => translate (urlD f))) ∧
    (∀ l, find_granules_by_zone lexists C epsg_code = .ok l →
      ∀ u ∈ l, ∃ f ∈ C.features,
        f.data_epsg = some epsg_code ∧ u = translate (urlD f) ∧
        lexists u = true) := by
  have key := find_granules_by_zone_loop_eq lexists epsg_code C.features h
  refine ⟨key, ?_⟩
  intro l hl u hu
  have hll := Except.ok.inj (key.symm.trans hl)
  subst hll
  rcases List.mem_map.mp hu with ⟨f, hf, rfl⟩
  have hf2 := List.mem_filter.mp hf
  have hkeep := hf2.2
  simp only [zoneKeep, Bool.and_eq_true, decide_eq_true_eq] at hkeep
  exact ⟨f, hf2.1, hkeep.1, rfl, hkeep.2⟩

/-- Witness for C4 at a concrete catalog: the zone-matching reachable
feature is returned in s3 form, the zone-matching unreachable feature
is dropped without error, and the other-zone feature is ignored. -/
theorem find_granules_by_zone_spec_witness :
    find_granules_by_zone lexC4 catC4 "EPSG:32645" =
      .ok ["s3://its-live-data/ok.zarr"] := by
  rw [(find_granules_by_zone_spec lexC4 catC4 "EPSG:32645" (by decide)).1]
  with_unfolding_all rfl

/-- C5 counterexample: on a concrete dataset the reprojected five-vertex
rectangle is computed internally (bbox_polygon), but the output value of
get_bbox_single is None — no BoundingBoxResult is returned. -/
theorem get_bbox_single_no_return_cex :
    get_bbox_single tfId dsC5 = .ok none ∧
    bbox_polygon tfId dsC5 =
      .ok (GeoPolygon.mk [(0, 0), (2, 0), (2, 3), (0, 3), (0, 0)] "epsg:4326") :=
  ⟨by with_unfolding_all rfl, by with_unfolding_all rfl⟩

/-- C5 amended: get_bbox_single computes internally exactly the
five-vertex closed rectangle over the coordinate extrema, tagged with
the native projection and reprojected to epsg:4326 — but the value the
call returns is None; the geometry is only rendered, not returned. -/
theorem get_bbox_single_geometry_spec (tf : String → String → Pt → Pt)
    (ds : Dataset) (hx : ds.x ≠ []) (hy : ds.y ≠ []) (e : Nat)
    (he : ds.spatial_epsg = some e) :
    bbox_polygon tf ds =
      .ok (to_crs tf
        (GeoPolygon.mk
          [(coordMin ds.x, coordMin ds.y), (coordMax ds.x, coordMin ds.y),
           (coordMax ds.x, coordMax ds.y), (coordMin ds.x, coordMax ds.y),
           (coordMin ds.x, coordMin ds.y)]
          ("epsg:" ++ toString e)) "epsg:4326") ∧
    get_bbox_single tf ds = .ok none := by
  obtain ⟨a, xs, hxe⟩ : ∃ a xs, ds.x = a :: xs := by
    cases hxl : ds.x with
    | nil => exact absurd hxl hx
    | cons a xs => exact ⟨a, xs, rfl⟩
  obtain ⟨b, ys, hye⟩ : ∃ b ys, ds.y = b :: ys := by
    cases hyl : ds.y with
    | nil => exact absurd hyl hy
    | cons b ys => exact ⟨b, ys, rfl⟩
  constructor
  · simp [bbox_polygon, hxe, hye, he, listMin, listMax, coordMin, coordMax]
  · simp [get_bbox_single, bbox_polygon, hxe, hye, he, listMin, listMax]

/-- Witness for C5 amended at a concrete dataset and transform. -/
theorem get_bbox_single_geometry_spec_witness :
    bbox_polygon tfId dsC5 =
      .ok (to_crs tfId
        (GeoPolygon.mk
          [(coordMin dsC5.x, coordMin dsC5.y), (coordMax dsC5.x, coordMin dsC5.y),
           (coordMax dsC5.x, coordMax dsC5.y), (coordMin dsC5.x, coordMax dsC5.y),
           (coordMin dsC5.x, coordMin dsC5.y)]
          ("epsg:" ++ toString 32645)) "epsg:4326") ∧
    get_bbox_single tfId dsC5 = .ok none :=
  get_bbox_single_geometry_spec tfId dsC5 (by decide) (by decide) 32645 rfl

/-- C6: when the dataset carries no recognizable projection attribute
(the mapping.spatial_epsg access fails), get_bbox_single fails with the
AttributeError that realizes MissingProjection, and no geometry is
produced. -/
theorem get_bbox_single_missing_projection (tf : String → String → Pt → Pt)
    (ds : Dataset) (hx : ds.x ≠ []) (hy : ds.y ≠ [])
    (he : ds.spatial_epsg = none) :
    bbox_polygon tf ds = .error .attributeError ∧
    get_bbox_single tf ds = .error .attributeError := by
  obtain ⟨a, xs, hxe⟩ : ∃ a xs, ds.x = a :: xs := by
    cases hxl : ds.x with
    | nil => exact absurd hxl hx
    | cons a xs => exact ⟨a, xs, rfl⟩
  obtain ⟨b, ys, hye⟩ : ∃ b ys, ds.y = b :: ys := by
    cases hyl : ds.y with
    | nil => exact absurd hyl hy
    | cons b ys => exact ⟨b, ys, rfl⟩
  constructor
  · simp [bbox_polygon, hxe, hye, he, listMin, listMax]
  · simp [get_bbox_single, bbox_polygon, hxe, hye, he, listMin, listMax]

/-- Witness for C6 at a concrete dataset missing its projection
attribute. -/
theorem get_bbox_single_missing_projection_witness :
    bbox_polygon tfId dsC6 = .error .attributeError ∧
    get_bbox_single tfId dsC6 = .error .attributeError :=
  get_bbox_single_missing_projection tfId dsC6 (by decide) (by decide) rfl

/-- C7 counterexample: the only feature of catC7bad is missing its
resource URL (a required field), yet both lookups run to completion and
return the empty list — the schema violation is masked as an empty
result, because the zarr_url field is only read for features that match
the query. -/
theorem missing_field_skipped_cex :
    catC7bad.features.map Feature.zarr_url = [none] ∧
    find_granule_by_point catC7bad (10, 10) = .ok [] ∧
    find_granules_by_zone (fun _ => true) catC7bad "EPSG:2" = .ok [] :=
  ⟨rfl, by with_unfolding_all rfl, by with_unfolding_all rfl⟩

/-- C7 amended: a lookup fails fast — with the KeyError that realizes
MalformedCatalogEntry — exactly when its traversal reads a missing
field: the point lookup fails whenever any feature lacks its footprint
ring, and the zone lookup fails whenever any feature lacks its zone
identifier. (A feature missing only its resource URL is silently
skipped when it does not match the query; see the counterexample.) -/
theorem malformed_entry_fail_fast :
    (∀ (C : Catalog) (p : Pt), (∃ f ∈ C.features, f.geometry = none) →
      find_granule_by_point C p = .error .keyError) ∧
    (∀ (lexists : String → Bool) (C : Catalog) (epsg_code : String),
      (∃ f ∈ C.features, f.data_epsg = none) →
      find_granules_by_zone lexists C epsg_code = .error .keyError) :=
  ⟨fun C p h => find_granule_by_point_loop_err p C.features h,
   fun lexists C epsg_code h =>
     find_granules_by_zone_loop_err lexists epsg_code C.features h⟩

/-- Witness for C7 amended at concrete catalogs missing the footprint
ring and the zone identifier respectively. -/
theorem malformed_entry_fail_fast_witness :
    find_granule_by_point catC7geom (1, 1) = .error .keyError ∧
    find_granules_by_zone (fun _ => true) catC7epsg "EPSG:1" =
      .error .keyError := by
  constructor
  · exact malformed_entry_fail_fast.1 catC7geom (1, 1)
      ⟨Feature.mk none (some "EPSG:1") (some "http://example.com/a.zarr"),
        by simp [catC7geom], rfl⟩
  · exact malformed_entry_fail_fast.2 (fun _ => true) catC7epsg "EPSG:1"
      ⟨Feature.mk (some ringSq) none (some "http://example.com/a.zarr"),
        by simp [catC7epsg], rfl⟩

/-- C9: the locator translation is a global substring replacement, not
a scheme-prefix rewrite: an https scheme becomes s3s, an http occurring
in the path is rewritten to s3 as well, and every occurrence of the
gateway suffix .s3.amazonaws.com is removed wherever it appears. -/
theorem translate_global_replacement :
    translate
        "https://its-live-data.s3.amazonaws.com/velocity/http_mirror/map.zarr" =
      "s3s://its-live-data/velocity/s3_mirror/map.zarr" ∧
    translate "http://a.s3.amazonaws.com/b.s3.amazonaws.com/c" = "s3://a/b/c" :=
  ⟨by decide, by decide⟩

/-- C10: on well-formed catalogs the point lookup returns each matching
feature resource URL verbatim, in its stored published (http) form,
while the zone lookup returns only locators obtained by applying the
translation to a stored URL. -/
theorem point_verbatim_zone_translated :
    (∀ (C : Catalog) (p : Pt) (l : List String), wfPoint C →
      find_granule_by_point C p = .ok l →
      ∀ u ∈ l, ∃ f ∈ C.features, f.zarr_url = some u) ∧
    (∀ (lexists : String → Bool) (C : Catalog) (epsg_code : String)
      (l : List String), wfZone C →
      find_granules_by_zone lexists C epsg_code = .ok l →
      ∀ u ∈ l, ∃ f ∈ C.features, ∃ raw, f.zarr_url = some raw ∧
        u = translate raw) := by
  constructor
  · intro C p l h hl u hu
    have key := find_granule_by_point_loop_eq p C.features h
    have hll := Except.ok.inj (key.symm.trans hl)
    subst hll
    rcases List.mem_map.mp hu with ⟨f, hf, rfl⟩
    have hf2 := List.mem_filter.mp hf
    obtain ⟨v, hv⟩ := Option.isSome_iff_exists.mp (h f hf2.1).2
    exact ⟨f, hf2.1, by simp [urlD, hv]⟩
  · intro lexists C epsg_code l h hl u hu
    have key := find_granules_by_zone_loop_eq lexists epsg_code C.features h
    have hll := Except.ok.inj (key.symm.trans hl)
    subst hll
    rcases List.mem_map.mp hu with ⟨f, hf, rfl⟩
    have hf2 := List.mem_filter.mp hf
    obtain ⟨v, hv⟩ := Option.isSome_iff_exists.mp (h f hf2.1).2
    exact ⟨f, hf2.1, v, hv, by simp [urlD, hv]⟩

/-- Witness for C10 at a concrete catalog: the point lookup returned
the stored http-form URL verbatim, and the zone lookup returned the
translation of a stored URL. -/
theorem point_verbatim_zone_translated_witness :
    (∃ f ∈ catC10.features,
      f.zarr_url = some "http://its-live-data.s3.amazonaws.com/a.zarr") ∧
    (∃ f ∈ catC10.features, ∃ raw, f.zarr_url = some raw ∧
      "s3://its-live-data/a.zarr" = translate raw) := by
  constructor
  · exact point_verbatim_zone_translated.1 catC10 (1, 1)
      ["http://its-live-data.s3.amazonaws.com/a.zarr"] (by decide)
      (by with_unfolding_all rfl) _ (List.mem_singleton_self _)
  · exact point_verbatim_zone_translated.2 (fun _ => true) catC10 "EPSG:32645"
      ["s3://its-live-data/a.zarr"] (by decide)
      (by with_unfolding_all rfl) _ (List.mem_singleton_self _)

end ItsLive
